import Mathlib

/-!
Shallow embedding of the stock-reconciliation logic of this repository.

The embedded code lives in two React components:
  * `client/src/pages/stock-control-final.tsx` (`StockControlFinal`): the
    session state machine — `startScanningSession`, `handleScan`,
    `finalizeScanningSession`, `dynamicStats`, `handleMarkAsLost`.
  * the unnamed stock-control page (`src/unnamed/part_000`,
    `StockControlPage`): `handleImeiScan`, which keeps a plain string list.

React `useState` hooks are modelled as fields of an explicit state record;
each event handler becomes a pure function from the fetched product array
and the current state to the next state, paired with the observable
outcome that the handler reports through a toast.  `new Date()` timestamps
are threaded in as an explicit `now : Nat` parameter.
-/

namespace StockControl

/-- Product status enum, from the `Product` interface of
`stock-control-final.tsx` (line 40). -/
inductive Status where
  | disponible
  | reservado
  | vendido
  | tecnico_interno
  | tecnico_externo
  | a_reparar
  | extravio
deriving DecidableEq, Repr

/-- Inventory record; the fields that the reconciliation logic reads
(`id`, `imei`, `status`) plus `model` and `costPrice` which only feed
messages and totals. -/
structure Product where
  id : Int
  imei : String
  model : String
  status : Status
  costPrice : Int
deriving DecidableEq, Repr

/-- Outcome tag of a `ScannedItem` (`'found' | 'not_found'`). -/
inductive ScanStatus where
  | found
  | not_found
deriving DecidableEq, Repr

/-- `ScannedItem` interface of `stock-control-final.tsx` (lines 49-54).
The JS `Date` timestamp is modelled as a `Nat` supplied by the caller. -/
structure ScannedItem where
  imei : String
  product : Option Product
  timestamp : Nat
  status : ScanStatus
deriving DecidableEq, Repr

/-- The `sessionStartCounts` state hook (lines 66-71). -/
structure SessionStartCounts where
  disponible : Nat
  reservado : Nat
  tecnico_interno : Nat
  total : Nat
deriving DecidableEq, Repr

/-- The component state relevant to the reconciliation session: the
`isScanning`, `imeiInput`, `scannedItems`, `sessionStartCounts` and
`missingProducts` hooks of `StockControlFinal`. -/
structure ComponentState where
  isScanning : Bool
  imeiInput : String
  scannedItems : List ScannedItem
  sessionStartCounts : SessionStartCounts
  missingProducts : List Product
deriving DecidableEq, Repr

/-- Initial hook values (lines 63-72). -/
def initialState : ComponentState :=
  { isScanning := false
    imeiInput := ""
    scannedItems := []
    sessionStartCounts :=
      { disponible := 0, reservado := 0, tecnico_interno := 0, total := 0 }
    missingProducts := [] }

/-- JS `String.prototype.trim` as used on the IMEI input: strip leading
and trailing whitespace.  Modelled structurally on the character list so
that it evaluates inside the kernel. -/
def jsTrim (s : String) : String :=
  String.mk (((s.data.dropWhile Char.isWhitespace).reverse.dropWhile
    Char.isWhitespace).reverse)

/-- `stats.disponible` (line 97): count of `'disponible'` products. -/
def statsDisponible (productArray : List Product) : Nat :=
  (productArray.filter (fun p => p.status == Status.disponible)).length

/-- `stats.reservado` (line 98). -/
def statsReservado (productArray : List Product) : Nat :=
  (productArray.filter (fun p => p.status == Status.reservado)).length

/-- `stats.tecnico_interno` (line 100). -/
def statsTecnicoInterno (productArray : List Product) : Nat :=
  (productArray.filter (fun p => p.status == Status.tecnico_interno)).length

/-- `stats.total` (line 96): length of the fetched product array. -/
def statsTotal (productArray : List Product) : Nat :=
  productArray.length

/-- `startScanningSession` (lines 165-190): compute the baseline counts
from the product array, clear the scan log and the missing list, and set
`isScanning`.  The toast and input-focus side effects are not modelled. -/
def startScanningSession (productArray : List Product) (s : ComponentState) :
    ComponentState :=
  let scannableProducts := productArray.filter (fun p =>
    p.status == Status.disponible || p.status == Status.reservado ||
      p.status == Status.tecnico_interno)
  { s with
    sessionStartCounts :=
      { disponible := statsDisponible productArray
        reservado := statsReservado productArray
        tecnico_interno := statsTecnicoInterno productArray
        total := scannableProducts.length }
    scannedItems := []
    missingProducts := []
    isScanning := true }

/-- The three toast outcomes of `finalizeScanningSession`
(lines 210-227). -/
inductive FinalizeOutcome where
  | complete
  | discrepancy
  | incomplete
deriving DecidableEq, Repr

/-- `finalizeScanningSession` (lines 193-228): stop scanning, compute the
products with a scannable status whose IMEI was not scanned, store them in
`missingProducts`, and classify the outcome exactly as the three toast
branches do. -/
def finalizeScanningSession (productArray : List Product) (s : ComponentState) :
    ComponentState × FinalizeOutcome :=
  let scannedCount := s.scannedItems.length
  let expectedCount := s.sessionStartCounts.total
  let expectedProducts := productArray.filter (fun p =>
    p.status == Status.disponible || p.status == Status.reservado ||
      p.status == Status.tecnico_interno)
  let scannedIMEIs := s.scannedItems.map (fun item => item.imei)
  let notScannedProducts := expectedProducts.filter (fun p =>
    !(scannedIMEIs.contains p.imei))
  let s1 := { s with isScanning := false, missingProducts := notScannedProducts }
  let outcome :=
    if scannedCount == expectedCount && notScannedProducts.length == 0 then
      FinalizeOutcome.complete
    else if notScannedProducts.length > 0 then
      FinalizeOutcome.discrepancy
    else
      FinalizeOutcome.incomplete
  (s1, outcome)

/-- The distinguishable toast outcomes of `handleScan`. -/
inductive ScanResult where
  | noop
  | rejectedNonScannable
  | acceptedFound
  | acceptedNotFound
  | rejectedDuplicate
deriving DecidableEq, Repr

/-- `handleScan` (lines 333-380) of `stock-control-final.tsx`.

JS control flow mirrored: nothing happens when the trimmed input is empty
(falsy); a matched product whose status is none of `disponible`,
`reservado`, `tecnico_interno` is rejected before the duplicate check; an
IMEI not yet present in `scannedItems` is recorded by *prepending* a new
`ScannedItem` (`[newItem, ...prev]`, line 357); otherwise the scan is
rejected as a duplicate.  In every non-empty case the input is cleared. -/
def handleScan (productArray : List Product) (now : Nat) (s : ComponentState) :
    ComponentState × ScanResult :=
  let trimmed := jsTrim s.imeiInput
  if trimmed.isEmpty then
    (s, ScanResult.noop)
  else
    let existingProduct := productArray.find? (fun p => p.imei == trimmed)
    let alreadyScanned := s.scannedItems.find? (fun item => item.imei == trimmed)
    let nonScannableHit :=
      match existingProduct with
      | some p =>
          !(p.status == Status.disponible) && !(p.status == Status.reservado) &&
            !(p.status == Status.tecnico_interno)
      | none => false
    if nonScannableHit then
      ({ s with imeiInput := "" }, ScanResult.rejectedNonScannable)
    else if alreadyScanned.isNone then
      let newItem : ScannedItem :=
        { imei := trimmed
          product := existingProduct
          timestamp := now
          status :=
            if existingProduct.isSome then ScanStatus.found
            else ScanStatus.not_found }
      ({ s with scannedItems := newItem :: s.scannedItems, imeiInput := "" },
        if existingProduct.isSome then ScanResult.acceptedFound
        else ScanResult.acceptedNotFound)
    else
      ({ s with imeiInput := "" }, ScanResult.rejectedDuplicate)

/-- `scannedIMEIs` (line 119). -/
def scannedIMEIsOf (s : ComponentState) : List String :=
  s.scannedItems.map (fun item => item.imei)

/-- `scannedProducts` (line 120): products whose IMEI occurs in the scan
log. -/
def scannedProductsOf (productArray : List Product) (s : ComponentState) :
    List Product :=
  productArray.filter (fun p => (scannedIMEIsOf s).contains p.imei)

/-- The session-relevant fields of `dynamicStats`; the live counters and
`pendingToScan` are `Int` because the JS subtractions are unclamped. -/
structure DynamicStats where
  disponible : Int
  reservado : Int
  tecnico_interno : Int
  scannedCount : Nat
  expectedTotal : Nat
  pendingToScan : Int
deriving DecidableEq, Repr

/-- `dynamicStats` (lines 122-130): live counters obtained by subtracting
the per-status count of scanned products from the `stats` counts;
`expectedTotal` falls back to `stats.total` and `pendingToScan` to `0`
when `sessionStartCounts.total` is zero. -/
def dynamicStats (productArray : List Product) (s : ComponentState) :
    DynamicStats :=
  { disponible := (statsDisponible productArray : Int) -
      (((scannedProductsOf productArray s).filter
        (fun p => p.status == Status.disponible)).length : Int)
    reservado := (statsReservado productArray : Int) -
      (((scannedProductsOf productArray s).filter
        (fun p => p.status == Status.reservado)).length : Int)
    tecnico_interno := (statsTecnicoInterno productArray : Int) -
      (((scannedProductsOf productArray s).filter
        (fun p => p.status == Status.tecnico_interno)).length : Int)
    scannedCount := s.scannedItems.length
    expectedTotal :=
      if s.sessionStartCounts.total > 0 then s.sessionStartCounts.total
      else statsTotal productArray
    pendingToScan :=
      if s.sessionStartCounts.total > 0 then
        (s.sessionStartCounts.total : Int) - (s.scannedItems.length : Int)
      else 0 }

/-- The PATCH body that `handleMarkAsLost` sends to the inventory writer
(lines 242-252): the product id in the URL and the requested new status. -/
structure UpdateRequest where
  productId : Int
  newStatus : Status
deriving DecidableEq, Repr

/-- `handleMarkAsLost` (lines 239-285).  The external write is modelled by
its observable result `writeOk` (`response.ok`); a thrown network error
takes the same state-preserving path as a non-ok response.  On success the
product is removed from `missingProducts` by id (line 258); no other
session field is touched. -/
def handleMarkAsLost (product : Product) (writeOk : Bool) (s : ComponentState) :
    ComponentState × UpdateRequest :=
  let req : UpdateRequest := { productId := product.id, newStatus := Status.extravio }
  if writeOk then
    ({ s with missingProducts :=
        s.missingProducts.filter (fun p => !(p.id == product.id)) }, req)
  else
    (s, req)

/-- Toast outcomes of `handleImeiScan` in the unnamed page. -/
inductive ImeiScanResult where
  | noop
  | accepted
  | rejectedDuplicate
deriving DecidableEq, Repr

/-- `handleImeiScan` (lines 145-163 of `src/unnamed/part_000`): on Enter
with a non-empty trimmed input, append the IMEI at the end of the string
list unless it is already present; clear the input either way.  Returns
the new `scannedItems`, the new `imeiInput` and the toast outcome. -/
def handleImeiScan (enterKey : Bool) (imeiInput : String)
    (scannedItems : List String) : List String × String × ImeiScanResult :=
  if enterKey && !(jsTrim imeiInput).isEmpty then
    let imei := jsTrim imeiInput
    if !(scannedItems.contains imei) then
      (scannedItems ++ [imei], "", ImeiScanResult.accepted)
    else
      (scannedItems, "", ImeiScanResult.rejectedDuplicate)
  else
    (scannedItems, imeiInput, ImeiScanResult.noop)

/-- The `ScannedItem` built for a matched product (lines 351-356). -/
def foundItem (imei : String) (p : Product) (now : Nat) : ScannedItem :=
  { imei := imei, product := some p, timestamp := now, status := ScanStatus.found }

/-- The `ScannedItem` built for an unknown IMEI (lines 351-356). -/
def notFoundItem (imei : String) (now : Nat) : ScannedItem :=
  { imei := imei, product := none, timestamp := now, status := ScanStatus.not_found }

/-! ## Helper lemmas -/

/-- The scannable filter's length is the sum of the three per-status
counts: each product has exactly one status, so the three filters
partition the scannable products. -/
theorem scannable_length_split (productArray : List Product) :
    (productArray.filter (fun p =>
        p.status == Status.disponible || p.status == Status.reservado ||
          p.status == Status.tecnico_interno)).length =
      statsDisponible productArray + statsReservado productArray +
        statsTecnicoInterno productArray := by
  unfold statsDisponible statsReservado statsTecnicoInterno
  induction productArray with
  | nil => rfl
  | cons p rest ih =>
    cases h : p.status <;> simp [List.filter_cons, h, ih] <;> omega

/-! ## Claims -/

/-- C7: `startScanningSession` computes the baseline by counting records
per scannable status (`disponible`, `reservado`, `tecnico_interno`), with
the stored total equal to the sum of those three counts; it clears the
scan log and the missing-records list and marks the session active. -/
theorem start_session_baseline (productArray : List Product) (s : ComponentState) :
    (startScanningSession productArray s).sessionStartCounts.disponible =
      statsDisponible productArray ∧
    (startScanningSession productArray s).sessionStartCounts.reservado =
      statsReservado productArray ∧
    (startScanningSession productArray s).sessionStartCounts.tecnico_interno =
      statsTecnicoInterno productArray ∧
    (startScanningSession productArray s).sessionStartCounts.total =
      statsDisponible productArray + statsReservado productArray +
        statsTecnicoInterno productArray ∧
    (startScanningSession productArray s).scannedItems = [] ∧
    (startScanningSession productArray s).missingProducts = [] ∧
    (startScanningSession productArray s).isScanning = true :=
  ⟨rfl, rfl, rfl, scannable_length_split productArray, rfl, rfl, rfl⟩

/-- C6: scanning an IMEI whose snapshot record has a non-scannable status
is rejected (`rejectedNonScannable`, the "not required for verification"
toast) and nothing is appended: `scannedItems` is unchanged. -/
theorem scan_nonScannable_rejected (productArray : List Product) (now : Nat)
    (s : ComponentState) (p : Product)
    (hne : (jsTrim s.imeiInput).isEmpty = false)
    (hfind : productArray.find? (fun q => q.imei == jsTrim s.imeiInput) = some p)
    (hd : p.status ≠ Status.disponible) (hr : p.status ≠ Status.reservado)
    (ht : p.status ≠ Status.tecnico_interno) :
    handleScan productArray now s =
      ({ s with imeiInput := "" }, ScanResult.rejectedNonScannable) ∧
    (handleScan productArray now s).1.scannedItems = s.scannedItems := by
  have hbd : (p.status == Status.disponible) = false := by simp [hd]
  have hbr : (p.status == Status.reservado) = false := by simp [hr]
  have hbt : (p.status == Status.tecnico_interno) = false := by simp [ht]
  have h : handleScan productArray now s =
      ({ s with imeiInput := "" }, ScanResult.rejectedNonScannable) := by
    simp [handleScan, hne, hfind, hbd, hbr, hbt]
  exact ⟨h, by rw [h]⟩

/-- A concrete sold product used in witnesses. -/
def productSold : Product :=
  { id := 3, imei := "S", model := "iPhone", status := Status.vendido, costPrice := 10 }

/-- A state whose pending input is the sold product's IMEI. -/
def stateSold : ComponentState := { initialState with imeiInput := "S" }

/-- Witness for C6 at the sold product. -/
theorem scan_nonScannable_rejected_witness :
    handleScan [productSold] 0 stateSold =
      ({ stateSold with imeiInput := "" }, ScanResult.rejectedNonScannable) ∧
    (handleScan [productSold] 0 stateSold).1.scannedItems = stateSold.scannedItems :=
  scan_nonScannable_rejected [productSold] 0 stateSold productSold (by decide)
    (by decide) (by decide) (by decide) (by decide)

/-- C2: scanning the same valid scannable IMEI twice in one session: the
second scan is rejected as a duplicate and not appended, so after the two
scans the log has grown by exactly one entry, not two. -/
theorem scan_duplicate_rejected (productArray : List Product) (n1 n2 : Nat)
    (s : ComponentState) (p : Product)
    (hne : (jsTrim s.imeiInput).isEmpty = false)
    (hfind : productArray.find? (fun q => q.imei == jsTrim s.imeiInput) = some p)
    (hscan : p.status = Status.disponible ∨ p.status = Status.reservado ∨
      p.status = Status.tecnico_interno)
    (hnew : s.scannedItems.find?
      (fun item => item.imei == jsTrim s.imeiInput) = none) :
    (handleScan productArray n2
        { (handleScan productArray n1 s).1 with imeiInput := s.imeiInput }).2 =
      ScanResult.rejectedDuplicate ∧
    (handleScan productArray n2
        { (handleScan productArray n1 s).1 with
          imeiInput := s.imeiInput }).1.scannedItems.length =
      s.scannedItems.length + 1 ∧
    (handleScan productArray n2
        { (handleScan productArray n1 s).1 with
          imeiInput := s.imeiInput }).1.scannedItems =
      (handleScan productArray n1 s).1.scannedItems := by
  have hb : (!(p.status == Status.disponible) && !(p.status == Status.reservado) &&
      !(p.status == Status.tecnico_interno)) = false := by
    rcases hscan with h | h | h <;> simp [h]
  have h1 : handleScan productArray n1 s =
      ({ s with
          scannedItems := foundItem (jsTrim s.imeiInput) p n1 :: s.scannedItems,
          imeiInput := "" },
        ScanResult.acceptedFound) := by
    simp [handleScan, foundItem, hne, hfind, hb, hnew]
  refine ⟨?_, ?_, ?_⟩ <;> rw [h1] <;> simp [handleScan, foundItem, hne, hfind, hb]

/-- C10: `handleScan` never consults the `isScanning` flag: with
`isScanning = false` a valid, non-duplicate, scannable IMEI is still
recorded in the scan log (the Active-state guard lives only in the
surrounding UI). -/
theorem scan_appends_when_not_scanning (productArray : List Product) (now : Nat)
    (s : ComponentState) (p : Product)
    (hflag : s.isScanning = false)
    (hne : (jsTrim s.imeiInput).isEmpty = false)
    (hfind : productArray.find? (fun q => q.imei == jsTrim s.imeiInput) = some p)
    (hscan : p.status = Status.disponible ∨ p.status = Status.reservado ∨
      p.status = Status.tecnico_interno)
    (hnew : s.scannedItems.find?
      (fun item => item.imei == jsTrim s.imeiInput) = none) :
    (handleScan productArray now s).1.scannedItems =
      foundItem (jsTrim s.imeiInput) p now :: s.scannedItems ∧
    (handleScan productArray now s).2 = ScanResult.acceptedFound ∧
    (handleScan productArray now s).1.isScanning = false := by
  have hb : (!(p.status == Status.disponible) && !(p.status == Status.reservado) &&
      !(p.status == Status.tecnico_interno)) = false := by
    rcases hscan with h | h | h <;> simp [h]
  refine ⟨?_, ?_, ?_⟩ <;> simp [handleScan, foundItem, hne, hfind, hb, hnew, hflag]

/-- C4 (amended): an empty or whitespace-only input is a no-op; a
non-empty trimmed IMEI that matches no snapshot record *and is not already
in the scan log* is recorded as a `not_found` scan event and reported as
unknown.  (An unknown IMEI that is already in the log is rejected as a
duplicate instead — see the counterexample.) -/
theorem scan_unknown_imei (productArray : List Product) (now : Nat)
    (s : ComponentState) :
    ((jsTrim s.imeiInput).isEmpty = true →
      handleScan productArray now s = (s, ScanResult.noop)) ∧
    ((jsTrim s.imeiInput).isEmpty = false →
      productArray.find? (fun p => p.imei == jsTrim s.imeiInput) = none →
      s.scannedItems.find? (fun item => item.imei == jsTrim s.imeiInput) = none →
      handleScan productArray now s =
        ({ s with
            scannedItems := notFoundItem (jsTrim s.imeiInput) now :: s.scannedItems,
            imeiInput := "" },
          ScanResult.acceptedNotFound)) := by
  constructor
  · intro h
    simp [handleScan, h]
  · intro hne hfind hnew
    simp [handleScan, notFoundItem, hne, hfind, hnew]

/-- A state holding the unknown IMEI `" Z "` in the input field. -/
def stateUnknown : ComponentState := { initialState with imeiInput := " Z " }

/-- A state holding a whitespace-only input. -/
def stateBlank : ComponentState := { initialState with imeiInput := "   " }

/-- Witness for C4 (amended): the unknown IMEI `"Z"` is recorded as
`not_found` against an empty snapshot, and a whitespace-only input is a
no-op. -/
theorem scan_unknown_imei_witness :
    handleScan [] 0 stateUnknown =
      ({ stateUnknown with
          scannedItems := notFoundItem (jsTrim stateUnknown.imeiInput) 0 ::
            stateUnknown.scannedItems,
          imeiInput := "" },
        ScanResult.acceptedNotFound) ∧
    handleScan [] 0 stateBlank = (stateBlank, ScanResult.noop) :=
  ⟨(scan_unknown_imei [] 0 stateUnknown).2 (by decide) (by decide) (by decide),
    (scan_unknown_imei [] 0 stateBlank).1 (by decide)⟩

/-- A state whose scan log already holds the unknown IMEI `"Z"`, with
`"Z"` again in the input field. -/
def stateDupUnknown : ComponentState :=
  { initialState with imeiInput := "Z", scannedItems := [notFoundItem "Z" 0] }

/-- C4 counterexample: the unknown IMEI `"Z"` (non-empty, matching no
record of the empty snapshot) is *not* appended as a `not_found` event
when it is already in the scan log — the scan is rejected as a duplicate
and the log is unchanged, refuting the claim as stated. -/
theorem scan_unknown_imei_counterexample :
    (jsTrim stateDupUnknown.imeiInput).isEmpty = false ∧
    ([] : List Product).find?
      (fun p => p.imei == jsTrim stateDupUnknown.imeiInput) = none ∧
    (handleScan [] 1 stateDupUnknown).1.scannedItems =
      stateDupUnknown.scannedItems ∧
    (handleScan [] 1 stateDupUnknown).2 = ScanResult.rejectedDuplicate ∧
    ¬ ((handleScan [] 1 stateDupUnknown).1.scannedItems.length =
      stateDupUnknown.scannedItems.length + 1) := by
  decide

/-- C1: `finalizeScanningSession` computes `missingProducts` as exactly
the snapshot records with a scannable status whose IMEI is absent from
the scan log, and classifies the outcome: `complete` iff the scan count
equals the baseline total and nothing is missing, `discrepancy` iff
something is missing (regardless of the count), `incomplete` otherwise. -/
theorem finalize_missing_and_outcome (productArray : List Product)
    (s : ComponentState) :
    (∀ p : Product,
      p ∈ (finalizeScanningSession productArray s).1.missingProducts ↔
        (p ∈ productArray ∧
          (p.status = Status.disponible ∨ p.status = Status.reservado ∨
            p.status = Status.tecnico_interno) ∧
          p.imei ∉ s.scannedItems.map (fun item => item.imei))) ∧
    ((finalizeScanningSession productArray s).2 = FinalizeOutcome.complete ↔
      (s.scannedItems.length = s.sessionStartCounts.total ∧
        (finalizeScanningSession productArray s).1.missingProducts = [])) ∧
    ((finalizeScanningSession productArray s).2 = FinalizeOutcome.discrepancy ↔
      (finalizeScanningSession productArray s).1.missingProducts ≠ []) ∧
    ((finalizeScanningSession productArray s).2 = FinalizeOutcome.incomplete ↔
      ((finalizeScanningSession productArray s).1.missingProducts = [] ∧
        s.scannedItems.length ≠ s.sessionStartCounts.total)) := by
  have hm1 : (finalizeScanningSession productArray s).1.missingProducts =
      (productArray.filter (fun p =>
        p.status == Status.disponible || p.status == Status.reservado ||
          p.status == Status.tecnico_interno)).filter (fun p =>
        !((s.scannedItems.map (fun item => item.imei)).contains p.imei)) := rfl
  have hm2 : (finalizeScanningSession productArray s).2 =
      (if s.scannedItems.length == s.sessionStartCounts.total &&
          (finalizeScanningSession productArray s).1.missingProducts.length == 0 then
        FinalizeOutcome.complete
      else if (finalizeScanningSession productArray s).1.missingProducts.length > 0 then
        FinalizeOutcome.discrepancy
      else
        FinalizeOutcome.incomplete) := rfl
  refine ⟨?_, ?_, ?_, ?_⟩
  · intro p
    rw [hm1]
    simp [List.mem_filter, and_assoc]
    tauto
  all_goals
    by_cases hL : s.scannedItems.length = s.sessionStartCounts.total <;>
      by_cases hM :
          (finalizeScanningSession productArray s).1.missingProducts = [] <;>
        rw [hm2] <;>
        simp [hL, hM, List.length_eq_zero, List.length_pos]

/-- C3: `start` immediately followed by `finalize`, with zero scans in
between, yields `missingProducts` equal to all scannable records of the
snapshot, and the outcome is `discrepancy` iff that set is non-empty. -/
theorem start_finalize_zero_scans (productArray : List Product)
    (s : ComponentState) :
    (finalizeScanningSession productArray
        (startScanningSession productArray s)).1.missingProducts =
      productArray.filter (fun p =>
        p.status == Status.disponible || p.status == Status.reservado ||
          p.status == Status.tecnico_interno) ∧
    ((finalizeScanningSession productArray
        (startScanningSession productArray s)).2 =
        FinalizeOutcome.discrepancy ↔
      productArray.filter (fun p =>
        p.status == Status.disponible || p.status == Status.reservado ||
          p.status == Status.tecnico_interno) ≠ []) := by
  constructor
  · simp [finalizeScanningSession, startScanningSession]
  · by_cases hE : productArray.filter (fun p =>
        p.status == Status.disponible || p.status == Status.reservado ||
          p.status == Status.tecnico_interno) = []
    · simp [finalizeScanningSession, startScanningSession, hE]
    · have hlen : (productArray.filter (fun p =>
          p.status == Status.disponible || p.status == Status.reservado ||
            p.status == Status.tecnico_interno)).length ≠ 0 := by
        simpa [List.length_eq_zero] using hE
      simp [finalizeScanningSession, startScanningSession, hE, hlen,
        Nat.pos_of_ne_zero hlen]

/-- A concrete available product used in witnesses. -/
def productA : Product :=
  { id := 1, imei := "A", model := "iPhone", status := Status.disponible,
    costPrice := 10 }

/-- A second concrete available product used in witnesses. -/
def productB : Product :=
  { id := 2, imei := "B", model := "iPhone", status := Status.disponible,
    costPrice := 20 }

/-- A fresh session over the one-product snapshot, with `"A"` typed in. -/
def stateScanA : ComponentState :=
  { startScanningSession [productA] initialState with imeiInput := "A" }

/-- Witness for C2: scanning `"A"` twice over the snapshot `[productA]`
grows the log by exactly one entry and ends in a duplicate rejection. -/
theorem scan_duplicate_rejected_witness :
    (handleScan [productA] 2
        { (handleScan [productA] 1 stateScanA).1 with
          imeiInput := stateScanA.imeiInput }).2 = ScanResult.rejectedDuplicate ∧
    (handleScan [productA] 2
        { (handleScan [productA] 1 stateScanA).1 with
          imeiInput := stateScanA.imeiInput }).1.scannedItems.length =
      stateScanA.scannedItems.length + 1 :=
  ⟨(scan_duplicate_rejected [productA] 1 2 stateScanA productA (by decide)
      (by decide) (Or.inl rfl) (by decide)).1,
    (scan_duplicate_rejected [productA] 1 2 stateScanA productA (by decide)
      (by decide) (Or.inl rfl) (by decide)).2.1⟩

/-- An idle state (`isScanning = false`) with `"A"` typed in. -/
def stateIdleA : ComponentState := { initialState with imeiInput := "A" }

/-- Witness for C10: with the session flag off, scanning the valid fresh
IMEI `"A"` still records a scan event. -/
theorem scan_appends_when_not_scanning_witness :
    stateIdleA.isScanning = false ∧
    (handleScan [productA] 0 stateIdleA).1.scannedItems =
      foundItem (jsTrim stateIdleA.imeiInput) productA 0 ::
        stateIdleA.scannedItems ∧
    (handleScan [productA] 0 stateIdleA).2 = ScanResult.acceptedFound :=
  ⟨rfl,
    (scan_appends_when_not_scanning [productA] 0 stateIdleA productA rfl
      (by decide) (by decide) (Or.inl rfl) (by decide)).1,
    (scan_appends_when_not_scanning [productA] 0 stateIdleA productA rfl
      (by decide) (by decide) (Or.inl rfl) (by decide)).2.1⟩

/-- The two-product snapshot used in the C5 counterexample. -/
def pairSnapshot : List Product := [productA, productB]

/-- State after scanning `"A"` then `"B"` in a fresh session. -/
def stateAfterAB : ComponentState :=
  (handleScan pairSnapshot 1
    { (handleScan pairSnapshot 0
        { startScanningSession pairSnapshot initialState with
          imeiInput := "A" }).1 with
      imeiInput := "B" }).1

/-- C5 counterexample: after accepted scans of `"A"` then `"B"`, the log
reads `["B", "A"]` — the later scan is the FIRST element and the last
element is still `"A"`, refuting "each accepted scan becomes the last
element of the log" for `handleScan`. -/
theorem scan_order_counterexample :
    stateAfterAB.scannedItems.map (fun it => it.imei) = ["B", "A"] ∧
    (stateAfterAB.scannedItems.map (fun it => it.imei)).getLast? = some "A" ∧
    ¬ ((stateAfterAB.scannedItems.map (fun it => it.imei)).getLast? =
      some "B") := by
  decide

/-- C5 (amended): scan events are added one at a time and the existing
log is never reordered or retroactively deduplicated: `handleScan` either
leaves `scannedItems` unchanged or prepends exactly one new event carrying
the trimmed input (the log is kept newest-first, i.e. reverse arrival
order); `handleImeiScan` either leaves its list unchanged or appends the
trimmed IMEI as the last element; and `finalize` leaves the log
untouched. -/
theorem scan_log_discipline (productArray : List Product) (now : Nat)
    (s : ComponentState) (enterKey : Bool) (imeiInput : String)
    (items : List String) :
    ((handleScan productArray now s).1.scannedItems = s.scannedItems ∨
      ∃ item : ScannedItem, item.imei = jsTrim s.imeiInput ∧
        (handleScan productArray now s).1.scannedItems =
          item :: s.scannedItems) ∧
    ((handleImeiScan enterKey imeiInput items).1 = items ∨
      (handleImeiScan enterKey imeiInput items).1 =
        items ++ [jsTrim imeiInput]) ∧
    (finalizeScanningSession productArray s).1.scannedItems =
      s.scannedItems := by
  refine ⟨?_, ?_, rfl⟩
  · simp only [handleScan]
    split
    · exact Or.inl rfl
    · split
      · exact Or.inl rfl
      · split
        · exact Or.inr ⟨_, rfl, rfl⟩
        · exact Or.inl rfl
  · simp only [handleImeiScan]
    split
    · split
      · exact Or.inr rfl
      · exact Or.inl rfl
    · exact Or.inl rfl

/-- Removing by id coincides with erasing the record itself when the ids
in the list are duplicate-free. -/
theorem filter_ne_id_eq_erase (l : List Product) (r : Product)
    (hmem : r ∈ l) (hids : (l.map (fun p => p.id)).Nodup) :
    l.filter (fun p => !(p.id == r.id)) = l.erase r := by
  induction l with
  | nil => cases hmem
  | cons x t ih =>
    rcases List.mem_cons.mp hmem with rfl | ht
    · have hno : ∀ p ∈ t, ¬(p.id = r.id) := by
        intro p hp hpe
        exact (List.nodup_cons.mp hids).1
          (by simpa [hpe] using List.mem_map_of_mem (fun p => p.id) hp)
      have hself : t.filter (fun p => !(p.id == r.id)) = t :=
        List.filter_eq_self.mpr (fun p hp => by simpa using hno p hp)
      simp [List.filter_cons, List.erase_cons_head, hself]
    · have hxid : x.id ≠ r.id := by
        intro he
        exact (List.nodup_cons.mp hids).1
          (by simpa [he] using List.mem_map_of_mem (fun p => p.id) ht)
      have hxne : x ≠ r := fun h => hxid (congrArg Product.id h)
      have hxr : (x == r) = false := beq_eq_false_iff_ne.mpr hxne
      have hbid : (x.id == r.id) = false := beq_eq_false_iff_ne.mpr hxid
      have hrec := ih ht (List.nodup_cons.mp hids).2
      simp [List.filter_cons, List.erase_cons, hbid, hxr, hrec]

/-- C9: for a record of `missingProducts`, `handleMarkAsLost` issues an
external write requesting status `extravio` (lost); on a successful write
it removes exactly that record from the in-memory `missingProducts` view
and touches no other session field; on a failed write (non-ok response or
thrown error) the whole state is unchanged. -/
theorem markAsLost_remediation (r : Product) (writeOk : Bool)
    (s : ComponentState)
    (hmem : r ∈ s.missingProducts)
    (hids : (s.missingProducts.map (fun p => p.id)).Nodup) :
    (handleMarkAsLost r writeOk s).2 =
      { productId := r.id, newStatus := Status.extravio } ∧
    (writeOk = true →
      (handleMarkAsLost r writeOk s).1.missingProducts =
        s.missingProducts.erase r ∧
      (handleMarkAsLost r writeOk s).1.scannedItems = s.scannedItems ∧
      (handleMarkAsLost r writeOk s).1.sessionStartCounts =
        s.sessionStartCounts ∧
      (handleMarkAsLost r writeOk s).1.isScanning = s.isScanning) ∧
    (writeOk = false → (handleMarkAsLost r writeOk s).1 = s) := by
  cases writeOk with
  | false =>
      refine ⟨rfl, fun h => by simp at h, fun _ => rfl⟩
  | true =>
      refine ⟨rfl, fun _ => ⟨?_, rfl, rfl, rfl⟩, fun h => by simp at h⟩
      exact filter_ne_id_eq_erase s.missingProducts r hmem hids

/-- A finalized state with two missing products. -/
def stateMissing : ComponentState :=
  { initialState with missingProducts := [productA, productB] }

/-- Witness for C9 at `productA` with a successful write. -/
theorem markAsLost_remediation_witness :
    productA ∈ stateMissing.missingProducts ∧
    (handleMarkAsLost productA true stateMissing).2 =
      { productId := productA.id, newStatus := Status.extravio } ∧
    (handleMarkAsLost productA true stateMissing).1.missingProducts =
      stateMissing.missingProducts.erase productA :=
  ⟨by decide,
    (markAsLost_remediation productA true stateMissing (by decide)
      (by decide)).1,
    ((markAsLost_remediation productA true stateMissing (by decide)
      (by decide)).2.1 rfl).1⟩

/-- The number of scan-log entries whose bound record has status `st`
(the spec's reading of the live counters). -/
def boundStatusCount (items : List ScannedItem) (st : Status) : Nat :=
  items.countP (fun it =>
    match it.product with
    | some p => p.status == st
    | none => false)

/-- `contains` is false for an absent element. -/
theorem contains_eq_false_of_not_mem (ls : List String) (a : String)
    (h : a ∉ ls) : ls.contains a = false := by
  simp_all

/-- `countP` distributes over a disjunction of disjoint predicates. -/
theorem countP_or_disjoint (l : List Product) (a b : Product → Bool)
    (h : ∀ x ∈ l, a x = true → b x = false) :
    l.countP (fun x => a x || b x) = l.countP a + l.countP b := by
  induction l with
  | nil => rfl
  | cons x t ih =>
    have hrec := ih (fun y hy => h y (List.mem_cons_of_mem x hy))
    by_cases hx : a x = true
    · have hbx : b x = false := h x (List.mem_cons_self x t) hx
      simp [List.countP_cons, hx, hbx, hrec]
      omega
    · have hax : a x = false := by simpa using hx
      by_cases hbx : b x = true <;>
        simp [List.countP_cons, hax, hbx, hrec, Nat.add_assoc]

/-- With duplicate-free IMEIs, the products matching a fixed IMEI and a
further predicate are counted by evaluating the predicate at the unique
`find?` witness. -/
theorem countP_unique_imei (l : List Product) (x : String) (q : Product)
    (g : Product → Bool)
    (hfind : l.find? (fun p => p.imei == x) = some q)
    (hnd : (l.map (fun p => p.imei)).Nodup) :
    l.countP (fun p => (p.imei == x) && g p) = if g q = true then 1 else 0 := by
  induction l with
  | nil => cases hfind
  | cons y t ih =>
    cases hy : (y.imei == x) with
    | true =>
        simp only [List.find?, hy] at hfind
        have hqy : y = q := Option.some.inj hfind
        subst hqy
        have hyx : y.imei = x := by simpa using hy
        have hzero : t.countP (fun p => (p.imei == x) && g p) = 0 := by
          rw [List.countP_eq_zero]
          intro p hp hpx
          have hpand : p.imei = x ∧ g p = true := by simpa using hpx
          apply (List.nodup_cons.mp hnd).1
          have hmem : p.imei ∈ t.map (fun p => p.imei) :=
            List.mem_map_of_mem (fun p => p.imei) hp
          rwa [hpand.1, ← hyx] at hmem
        rw [List.countP_cons, hzero]
        simp [hy]
    | false =>
        simp only [List.find?, hy] at hfind
        rw [List.countP_cons, ih hfind (List.nodup_cons.mp hnd).2]
        simp [hy]

/-- Key counting fact behind the live counters: with duplicate-free IMEIs
on both sides and each log entry bound to `find?` on its IMEI, counting
snapshot products of status `st` whose IMEI was scanned equals counting
log entries whose bound record has status `st`. -/
theorem scanned_status_count (productArray : List Product)
    (items : List ScannedItem) (st : Status)
    (hpa : (productArray.map (fun p => p.imei)).Nodup)
    (hnd : (items.map (fun it => it.imei)).Nodup)
    (hbound : ∀ it ∈ items, it.product =
      productArray.find? (fun p => p.imei == it.imei)) :
    productArray.countP (fun p =>
        ((items.map (fun it => it.imei)).contains p.imei) && (p.status == st)) =
      boundStatusCount items st := by
  induction items with
  | nil => simp [boundStatusCount]
  | cons it rest ih =>
    have hndr : (rest.map (fun i => i.imei)).Nodup := (List.nodup_cons.mp hnd).2
    have hnotin : it.imei ∉ rest.map (fun i => i.imei) := (List.nodup_cons.mp hnd).1
    have hbr : ∀ i ∈ rest, i.product =
        productArray.find? (fun p => p.imei == i.imei) :=
      fun i hi => hbound i (List.mem_cons_of_mem it hi)
    have hrec := ih hndr hbr
    have hsplit : productArray.countP (fun p =>
        (((it :: rest).map (fun i => i.imei)).contains p.imei) &&
          (p.status == st)) =
      productArray.countP (fun p => (p.imei == it.imei) && (p.status == st)) +
        productArray.countP (fun p =>
          ((rest.map (fun i => i.imei)).contains p.imei) && (p.status == st)) := by
      have hfun : (fun p : Product =>
          (((it :: rest).map (fun i => i.imei)).contains p.imei) &&
            (p.status == st)) =
        (fun p : Product =>
          ((p.imei == it.imei) && (p.status == st)) ||
          (((rest.map (fun i => i.imei)).contains p.imei) &&
            (p.status == st))) := by
        funext p
        rw [List.map_cons, List.contains_cons]
        cases h1 : (p.imei == it.imei) <;>
          cases h2 : ((rest.map (fun i => i.imei)).contains p.imei) <;>
          cases h3 : (p.status == st) <;> rfl
      rw [hfun]
      apply countP_or_disjoint
      intro p hp hpa1
      have hpand : p.imei = it.imei ∧ (p.status == st) = true := by
        simpa using hpa1
      have hcf : (rest.map (fun i => i.imei)).contains p.imei = false := by
        rw [hpand.1]
        exact contains_eq_false_of_not_mem _ _ hnotin
      simp only [hcf, Bool.false_and]
    rcases hcase : productArray.find? (fun p => p.imei == it.imei) with _ | q
    · have hz : productArray.countP
          (fun p => (p.imei == it.imei) && (p.status == st)) = 0 := by
        rw [List.countP_eq_zero]
        intro p hp hpx
        have hpand : p.imei = it.imei ∧ (p.status == st) = true := by
          simpa using hpx
        have := List.find?_eq_none.mp hcase p hp
        exact this (by simpa using hpand.1)
      have hprod : it.product = none := by
        rw [hbound it (List.mem_cons_self it rest), hcase]
      rw [hsplit, hz, hrec]
      simp [boundStatusCount, List.countP_cons, hprod]
    · have hone : productArray.countP
          (fun p => (p.imei == it.imei) && (p.status == st)) =
          if (q.status == st) = true then 1 else 0 :=
        countP_unique_imei productArray it.imei q _ hcase hpa
      have hprod : it.product = some q := by
        rw [hbound it (List.mem_cons_self it rest), hcase]
      rw [hsplit, hone, hrec]
      simp only [boundStatusCount, List.countP_cons, hprod]
      by_cases hq : (q.status == st) = true <;> simp [hq, Nat.add_comm]

/-- C8 (amended): for a session whose baseline matches the snapshot, with
duplicate-free IMEIs in snapshot and log and log entries bound via
`find?`, each live counter equals the baseline count minus the number of
log entries whose bound record has that status.  `pendingToScan` equals
`expectedTotal - scanLog.length` (unclamped) only when the baseline total
is positive; at baseline total zero it is hard-coded `0` while
`expectedTotal` falls back to the full product count. -/
theorem dynamicStats_live_counters (productArray : List Product)
    (s : ComponentState)
    (hpa : (productArray.map (fun p => p.imei)).Nodup)
    (hnd : (s.scannedItems.map (fun it => it.imei)).Nodup)
    (hbound : ∀ it ∈ s.scannedItems, it.product =
      productArray.find? (fun p => p.imei == it.imei))
    (hd : s.sessionStartCounts.disponible = statsDisponible productArray)
    (hr : s.sessionStartCounts.reservado = statsReservado productArray)
    (ht : s.sessionStartCounts.tecnico_interno =
      statsTecnicoInterno productArray) :
    (dynamicStats productArray s).disponible =
      (s.sessionStartCounts.disponible : Int) -
        (boundStatusCount s.scannedItems Status.disponible : Int) ∧
    (dynamicStats productArray s).reservado =
      (s.sessionStartCounts.reservado : Int) -
        (boundStatusCount s.scannedItems Status.reservado : Int) ∧
    (dynamicStats productArray s).tecnico_interno =
      (s.sessionStartCounts.tecnico_interno : Int) -
        (boundStatusCount s.scannedItems Status.tecnico_interno : Int) ∧
    (0 < s.sessionStartCounts.total →
      (dynamicStats productArray s).pendingToScan =
        ((dynamicStats productArray s).expectedTotal : Int) -
          (s.scannedItems.length : Int) ∧
      (dynamicStats productArray s).expectedTotal =
        s.sessionStartCounts.total) ∧
    (s.sessionStartCounts.total = 0 →
      (dynamicStats productArray s).pendingToScan = 0 ∧
      (dynamicStats productArray s).expectedTotal =
        statsTotal productArray) := by
  have hlen : ∀ st : Status,
      ((scannedProductsOf productArray s).filter
        (fun p => p.status == st)).length = boundStatusCount s.scannedItems st := by
    intro st
    rw [scannedProductsOf, scannedIMEIsOf, List.filter_filter,
      ← List.countP_eq_length_filter]
    have hcomm : (fun a : Product => (a.status == st) &&
        ((s.scannedItems.map (fun item => item.imei)).contains a.imei)) =
      (fun a : Product =>
        ((s.scannedItems.map (fun item => item.imei)).contains a.imei) &&
          (a.status == st)) := by
      funext a
      exact Bool.and_comm _ _
    rw [hcomm]
    exact scanned_status_count productArray s.scannedItems st hpa hnd hbound
  refine ⟨?_, ?_, ?_, ?_, ?_⟩
  · show (statsDisponible productArray : Int) - _ = _
    rw [hlen Status.disponible, hd]
  · show (statsReservado productArray : Int) - _ = _
    rw [hlen Status.reservado, hr]
  · show (statsTecnicoInterno productArray : Int) - _ = _
    rw [hlen Status.tecnico_interno, ht]
  · intro hpos
    constructor
    · show (if 0 < s.sessionStartCounts.total then _ else _) =
        ((if 0 < s.sessionStartCounts.total then _ else _ : Nat) : Int) - _
      rw [if_pos hpos, if_pos hpos]
    · show (if 0 < s.sessionStartCounts.total then _ else _) = _
      rw [if_pos hpos]
  · intro hzero
    constructor
    · show (if 0 < s.sessionStartCounts.total then _ else _) = (0 : Int)
      rw [if_neg (by omega)]
    · show (if 0 < s.sessionStartCounts.total then _ else _) = _
      rw [if_neg (by omega)]

/-- A snapshot of two sold (non-scannable) products. -/
def soldPair : List Product :=
  [{ id := 7, imei := "S1", model := "iPhone", status := Status.vendido,
      costPrice := 5 },
    { id := 8, imei := "S2", model := "iPhone", status := Status.vendido,
      costPrice := 5 }]

/-- A session started over `soldPair` (baseline total 0) after scanning
the unknown IMEI `"Z"`. -/
def stateSoldScan : ComponentState :=
  (handleScan soldPair 0
    { startScanningSession soldPair initialState with imeiInput := "Z" }).1

/-- C8 counterexample: in the active session over `soldPair` with one
logged scan, `pendingToScan` is `0` but `expectedTotal - scanLog.length`
is not — neither under `dynamicStats.expectedTotal` (= 2) nor under the
baseline total (= 0) — refuting the unconditional subtraction identity. -/
theorem pendingToScan_counterexample :
    stateSoldScan.isScanning = true ∧
    stateSoldScan.scannedItems.length = 1 ∧
    (dynamicStats soldPair stateSoldScan).pendingToScan = 0 ∧
    ¬ ((dynamicStats soldPair stateSoldScan).pendingToScan =
      ((dynamicStats soldPair stateSoldScan).expectedTotal : Int) -
        (stateSoldScan.scannedItems.length : Int)) ∧
    ¬ ((dynamicStats soldPair stateSoldScan).pendingToScan =
      (stateSoldScan.sessionStartCounts.total : Int) -
        (stateSoldScan.scannedItems.length : Int)) := by
  decide

/-- A session over `pairSnapshot` after one accepted scan of `"A"`. -/
def stateScanned1 : ComponentState :=
  (handleScan pairSnapshot 0
    { startScanningSession pairSnapshot initialState with
      imeiInput := "A" }).1

/-- Witness for C8 (amended) on a two-product snapshot with one scan. -/
theorem dynamicStats_live_counters_witness :
    (pairSnapshot.map (fun p => p.imei)).Nodup ∧
    0 < stateScanned1.sessionStartCounts.total ∧
    (dynamicStats pairSnapshot stateScanned1).disponible =
      (stateScanned1.sessionStartCounts.disponible : Int) -
        (boundStatusCount stateScanned1.scannedItems Status.disponible : Int) ∧
    (dynamicStats pairSnapshot stateScanned1).pendingToScan =
      ((dynamicStats pairSnapshot stateScanned1).expectedTotal : Int) -
        (stateScanned1.scannedItems.length : Int) :=
  ⟨by decide, by decide,
    (dynamicStats_live_counters pairSnapshot stateScanned1 (by decide)
      (by decide) (by decide) (by decide) (by decide) (by decide)).1,
    ((dynamicStats_live_counters pairSnapshot stateScanned1 (by decide)
      (by decide) (by decide) (by decide) (by decide) (by decide)).2.2.2.1
      (by decide)).1⟩

end StockControl
